import Mathlib

/-!
Shallow embedding of `archimedes/archimedes.py` (the Reference Resolver and
Transfer Orchestrator of the archimedes repository) and proofs about it.

The file store (`load_json`, `find_file`, `save_to_file` from
`archimedes.utils`) and the remote object store (`archimedes.kibana.Kibana`)
are external collaborators; they are represented by explicit environment
records whose fields follow their interface description.  Pure helpers
(`get_file_name`, `get_folder_path`, the three resolver methods,
`import_from_file`, `export`, `__export_objects`, `__find_index_pattern`)
are translated function by function.  Export-side effects (remote calls and
file writes) are recorded as an explicit event trace.
-/

set_option autoImplicit false
set_option linter.unusedVariables false

deriving instance DecidableEq for Except

/-- Python `str.lower()` on the ASCII strings the program handles: lower-case
every character. -/
def str_to_lower (s : String) : String := String.mk (s.data.map Char.toLower)

/-- Python `str.split(sep)` for a one-character separator, over the character
list: every occurrence of the separator starts a new (possibly empty) group. -/
def split_chars (sep : Char) : List Char → List (List Char)
  | [] => [[]]
  | c :: rest =>
    let r := split_chars sep rest
    if c = sep then [] :: r
    else
      match r with
      | [] => [[c]]
      | g :: gs => (c :: g) :: gs

/-- Python `str.split(sep)` for a one-character separator. -/
def str_split_on (s : String) (sep : Char) : List String :=
  (split_chars sep s.data).map String.mk

/-- `VISUALIZATIONS_FOLDER` constant of `archimedes.py`. -/
def VISUALIZATIONS_FOLDER : String := "visualizations"

/-- `INDEX_PATTERNS_FOLDER` constant of `archimedes.py`. -/
def INDEX_PATTERNS_FOLDER : String := "index-patterns"

/-- `SEARCHES_FOLDER` constant of `archimedes.py`. -/
def SEARCHES_FOLDER : String := "searches"

/-- `JSON_EXT` constant of `archimedes.py`. -/
def JSON_EXT : String := ".json"

/-- Modelled from the spec: the `DASHBOARD` type constant is imported from
`archimedes.clients.dashboard`, which is not under `src/`; its value follows
the spec file-naming convention and the literal string comparison
`obj['type'] == 'dashboard'` in `__export_objects`. -/
def DASHBOARD : String := "dashboard"

/-- Modelled from the spec: the `VISUALIZATION` type constant imported from
`archimedes.clients.dashboard` (not under `src/`); value per the spec
file-naming convention (`visualization`). -/
def VISUALIZATION : String := "visualization"

/-- Modelled from the spec: the `SEARCH` type constant imported from
`archimedes.clients.dashboard` (not under `src/`); value per the spec
file-naming convention (`search`). -/
def SEARCH : String := "search"

/-- Modelled from the spec: the `INDEX_PATTERN` type constant imported from
`archimedes.clients.dashboard` (not under `src/`); value per the spec
file-naming convention (`index-pattern`). -/
def INDEX_PATTERN : String := "index-pattern"

/-- `get_file_name(obj_type, obj_id)`: `(obj_type + '_' + obj_id + JSON_EXT).lower()`. -/
def get_file_name (obj_type obj_id : String) : String :=
  str_to_lower (obj_type ++ "_" ++ obj_id ++ JSON_EXT)

/-- `get_folder_path(root_path, obj_type)`: the per-type subfolder path.
The `os.makedirs` side effect creates directories and does not change the
returned path, so it has no counterpart here. `os.path.join` is modelled for
relative second components. -/
def get_folder_path (root_path obj_type : String) : String :=
  let name :=
    if obj_type = VISUALIZATION then VISUALIZATIONS_FOLDER
    else if obj_type = INDEX_PATTERN then INDEX_PATTERNS_FOLDER
    else if obj_type = SEARCH then SEARCHES_FOLDER
    else ""
  if name = "" then root_path else root_path ++ "/" ++ name

/-- A panel descriptor inside a dashboard's `panelsJSON`: carries `type` and `id`. -/
structure Panel where
  ptype : String
  id : String
deriving DecidableEq, Repr

/-- The parsed `searchSourceJSON` document; `index` is its optional `index` field. -/
structure SearchSource where
  index : Option String
deriving DecidableEq, Repr

/-- The `kibanaSavedObjectMeta` attribute; `searchSourceJSON` is `some` when that
key is present (already parsed from its JSON string form). -/
structure SavedObjectMeta where
  searchSourceJSON : Option SearchSource
deriving DecidableEq, Repr

/-- The `attributes` mapping of a saved object, restricted to the keys the
program reads.  Each `Option` is `some` exactly when the key is present;
`panelsJSON` holds the panel list parsed from its JSON string form. -/
structure Attributes where
  panelsJSON : Option (List Panel)
  savedSearchId : Option String
  kibanaSavedObjectMeta : Option SavedObjectMeta
deriving DecidableEq, Repr

/-- One saved-object artifact: `type`, `id` and its `attributes`. -/
structure ObjContent where
  otype : String
  id : String
  attributes : Attributes
deriving DecidableEq, Repr

/-- Errors of the program: the three error classes of `archimedes.errors`, the
file-store failures, and untyped Python runtime errors (`KeyError`,
`IndexError`, `TypeError`) reachable from the translated code paths. -/
inductive ArchError where
  | fileTypeError (cause : String)
  | objectTypeError (cause : String)
  | exportError (cause : String)
  | notFoundError (cause : String)
  | fileExistsError (cause : String)
  | pyError (cause : String)
deriving DecidableEq, Repr

/-- Modelled from the spec: the File Store collaborator (`archimedes.utils`,
not under `src/`). `loadJson` is `load_json` (returns the parsed document, or
`none` for an empty file); `findFile` is `find_file` (resolves a file name
inside a folder, fails if not found); `fileExists` is the existence check
backing `save_to_file`'s refuse-unless-force behaviour. -/
structure Env where
  loadJson : String → Option ObjContent
  findFile : String → String → Except ArchError String
  fileExists : String → Bool

/-- Modelled from the spec: calling `find_file` with a possibly-absent folder
argument.  The spec gives `find_file(folder, filename)` a success path only
inside a supplied folder, so a `None` folder fails (in Python,
`os.walk(None)` raises `TypeError`). -/
def Env.findFileOpt (env : Env) : Option String → String → Except ArchError String
  | some folder, name => env.findFile folder name
  | none, name => .error (.pyError ("find_file called with folder None for " ++ name))

/-- `Archimedes.__find_index_pattern(obj)`: looks for
`attributes.kibanaSavedObjectMeta.searchSourceJSON`, parses it, and returns
its `index` field; absent at any step yields `none`. -/
def find_index_pattern (obj : ObjContent) : Option String :=
  match obj.attributes.kibanaSavedObjectMeta with
  | none => none
  | some meta =>
    match meta.searchSourceJSON with
    | none => none
    | some sc =>
      match sc.index with
      | none => none
      | some idx => some idx

/-- Python truthiness of an optional string: `None` and `''` are falsy. -/
def truthyStr : Option String → Bool
  | none => false
  | some s => !(s == "")

/-- The list comprehension
`[files.append(p) for p in new_files if p not in files]`: append each new
element not already present, preserving first-seen order. -/
def appendUnique (files new_files : List String) : List String :=
  new_files.foldl (fun fs p => if p ∈ fs then fs else fs ++ [p]) files

/-- `Archimedes._find_search_files(search_path, index_patterns_folder)`. -/
def find_search_files (env : Env) (search_path : String)
    (index_patterns_folder : Option String) : Except ArchError (List String) :=
  match env.loadJson search_path with
  | none => .error (.pyError ("TypeError: empty content for " ++ search_path))
  | some search_content =>
    match find_index_pattern search_content with
    | none => .ok [search_path]
    | some index_pattern_id =>
      if index_pattern_id = "" then .ok [search_path]
      else
        match env.findFileOpt index_patterns_folder
            (get_file_name INDEX_PATTERN index_pattern_id) with
        | .error e => .error e
        | .ok ip_path => .ok [ip_path, search_path]

/-- The `savedSearchId` block of `Archimedes._find_visualization_files`:
when the key is present and a searches folder is supplied, locate the saved
search's file and start the list with it; otherwise start empty. -/
def saved_search_step (env : Env) :
    Option String → Option String → Except ArchError (List String)
  | some search_id, some sf =>
    match env.findFile sf (get_file_name SEARCH search_id) with
    | .error e => .error e
    | .ok search_path => .ok [search_path]
  | _, _ => .ok []

/-- `Archimedes._find_visualization_files(visualization_path, searches_folder,
index_patterns_folder)`. -/
def find_visualization_files (env : Env) (visualization_path : String)
    (searches_folder index_patterns_folder : Option String) :
    Except ArchError (List String) :=
  match env.loadJson visualization_path with
  | none => .error (.pyError ("TypeError: empty content for " ++ visualization_path))
  | some vis_content =>
    match saved_search_step env vis_content.attributes.savedSearchId searches_folder with
    | .error e => .error e
    | .ok visualization_files =>
      match find_search_files env visualization_path index_patterns_folder with
      | .error e => .error e
      | .ok search_files => .ok (appendUnique visualization_files search_files)

/-- The body of the panel loop in `Archimedes._find_dashboard_files`: dispatch
on the panel `type`, locate the panel's file, and resolve its files; an
unhandled type raises `ObjectTypeError`. -/
def resolve_panel (env : Env) (visualizations_folder : String)
    (searches_folder index_patterns_folder : Option String) (panel : Panel) :
    Except ArchError (List String) :=
  if panel.ptype = VISUALIZATION then
    match env.findFile visualizations_folder (get_file_name VISUALIZATION panel.id) with
    | .error e => .error e
    | .ok panel_path =>
      find_visualization_files env panel_path searches_folder index_patterns_folder
  else if panel.ptype = SEARCH then
    match env.findFileOpt searches_folder (get_file_name SEARCH panel.id) with
    | .error e => .error e
    | .ok panel_path => find_search_files env panel_path index_patterns_folder
  else
    .error (.objectTypeError ("Panel type " ++ panel.ptype ++ " not handled"))

/-- One iteration of the dashboard loop: resolve the panel, then fold its
files into the accumulator, deduplicated, first-seen order preserved. -/
def dashboard_step (env : Env) (visualizations_folder : String)
    (searches_folder index_patterns_folder : Option String)
    (acc : List String) (panel : Panel) : Except ArchError (List String) :=
  match resolve_panel env visualizations_folder searches_folder index_patterns_folder panel with
  | .error e => .error e
  | .ok panel_files => .ok (appendUnique acc panel_files)

/-- `Archimedes._find_dashboard_files(dashboard_path, visualizations_folder,
searches_folder, index_patterns_folder)`.  In the source `load_json` runs
before the folder check; it is a pure lookup whose result is unused on the
no-folder path, so checking the folder first is observationally equal. -/
def find_dashboard_files (env : Env) (dashboard_path : String)
    (visualizations_folder searches_folder index_patterns_folder : Option String) :
    Except ArchError (List String) :=
  match visualizations_folder with
  | none => .ok [dashboard_path]
  | some vf =>
    match env.loadJson dashboard_path with
    | none => .error (.pyError ("TypeError: empty content for " ++ dashboard_path))
    | some content =>
      match content.attributes.panelsJSON with
      | none => .error (.pyError "KeyError: panelsJSON")
      | some panels =>
        match panels.foldlM (dashboard_step env vf searches_folder index_patterns_folder) [] with
        | .error e => .error e
        | .ok dashboard_files => .ok (dashboard_files ++ [dashboard_path])

/-- `Path(file_path).name`: the last path component (modelled for paths
without a trailing separator). -/
def path_name (file_path : String) : String :=
  (str_split_on file_path '/').getLastD ""

/-- `Path(file_path).name.split("_")[0].lower()`: the file name's leading
token before the first underscore, lower-cased. -/
def file_type_of (file_path : String) : String :=
  str_to_lower ((str_split_on (path_name file_path) '_').headD "")

/-- `Archimedes.import_from_file(file_path, find, visualizations_folder,
searches_folder, index_patterns_folder, force)`.  The result on success is
the ordered list of file paths handed one by one to
`__import_files`/`Kibana.import_objects` (empty for the empty-file no-op);
an error means the exception was raised before any file was imported;
`force` is passed through to the remote store and does not affect which
files are selected. -/
def import_from_file (env : Env) (file_path : String) (find : Bool)
    (visualizations_folder searches_folder index_patterns_folder : Option String)
    (force : Bool) : Except ArchError (List String) :=
  match env.loadJson file_path with
  | none => .ok []
  | some _ =>
    if !find then .ok [file_path]
    else
      let file_type := file_type_of file_path
      if file_type = DASHBOARD then
        find_dashboard_files env file_path visualizations_folder searches_folder
          index_patterns_folder
      else if file_type = VISUALIZATION then
        find_visualization_files env file_path searches_folder index_patterns_folder
      else if file_type = SEARCH then
        find_search_files env file_path index_patterns_folder
      else
        .error (.fileTypeError ("File type " ++ file_type ++ " not known"))

/-- A payload fetched from the remote store: a bare artifact object, or a
wrapper carrying an `objects` list. -/
inductive Payload where
  | single (obj : ObjContent)
  | collection (objs : List ObjContent)
deriving DecidableEq, Repr

/-- What a `save_to_file` call writes: the whole fetched payload (one-file
dashboard export) or a single object. -/
inductive SavedDoc where
  | whole (data : Payload)
  | object (obj : ObjContent)
deriving DecidableEq, Repr

/-- One observable effect of an export run, in order: a remote fetch
(`Kibana.export_by_id` / `export_by_title`), a remote lookup
(`Kibana.find_by_id`, whose id argument is passed through possibly-absent),
or a file write (`save_to_file`). -/
inductive ExportEvent where
  | fetch_by_id (obj_type obj_id : String)
  | fetch_by_title (obj_type title : String)
  | find_by_id (obj_type : String) (obj_id : Option String)
  | save (doc : SavedDoc) (path : String)
deriving DecidableEq, Repr

/-- The export run state: the events so far, and the paths written so far
(a later write to one of them sees an existing file). -/
structure ExpState where
  events : List ExportEvent
  written : List String
deriving DecidableEq, Repr

/-- Modelled from the spec: the Remote Object Store collaborator
(`archimedes.kibana.Kibana`, not under `src/`): `export_by_id`,
`export_by_title` and `find_by_id`.  `find_by_id` takes an optional id
because `__export_objects` passes it the result of `__find_index_pattern`
unchecked. -/
structure Store where
  export_by_id : String → String → Payload
  export_by_title : String → String → Payload
  find_by_id : String → Option String → ObjContent

/-- Modelled from the spec: `utils.save_to_file(document, path, force)` (not
under `src/`): refuses to overwrite an existing file unless `force` is set;
on success the write is recorded in the trace. -/
def save_to_file (env : Env) (st : ExpState) (doc : SavedDoc) (path : String)
    (force : Bool) : Except (ExpState × ArchError) ExpState :=
  if (env.fileExists path || path ∈ st.written) && !force then
    .error (st, .fileExistsError ("File " ++ path ++ " already exists"))
  else
    .ok (ExpState.mk (st.events ++ [.save doc path]) (st.written ++ [path]))

/-- `os.path.join` for a relative second component. -/
def path_join (a b : String) : String := a ++ "/" ++ b

/-- The body of the object loop in `Archimedes.__export_objects`: write the
object under its type subfolder; when `index_pattern` is set, extract the
index-pattern id, call `Kibana.find_by_id` with it unconditionally, and write
the fetched index-pattern object — with an absent id the file-name
concatenation `INDEX_PATTERN + '_' + None` raises `TypeError`. -/
def export_obj (env : Env) (store : Store) (folder_path : String)
    (force index_pattern : Bool) (st : ExpState) (obj : ObjContent) :
    Except (ExpState × ArchError) ExpState :=
  match save_to_file env st (.object obj)
      (path_join (get_folder_path folder_path obj.otype)
        (get_file_name obj.otype obj.id)) force with
  | .error e => .error e
  | .ok st1 =>
    if index_pattern then
      match find_index_pattern obj with
      | none =>
        .error (ExpState.mk (st1.events ++ [.find_by_id INDEX_PATTERN none]) st1.written,
          .pyError "TypeError: file name from id None")
      | some ip_id =>
        save_to_file env
          (ExpState.mk (st1.events ++ [.find_by_id INDEX_PATTERN (some ip_id)]) st1.written)
          (.object (store.find_by_id INDEX_PATTERN (some ip_id)))
          (path_join (get_folder_path folder_path INDEX_PATTERN)
            (get_file_name INDEX_PATTERN ip_id)) force
    else
      .ok st1

/-- `Archimedes.__export_objects(data, obj_type, folder_path, one_file,
force, index_pattern)`. -/
def export_objects (env : Env) (store : Store) (data : Payload)
    (obj_type folder_path : String) (one_file force index_pattern : Bool)
    (st : ExpState) : Except (ExpState × ArchError) ExpState :=
  if one_file && (obj_type == DASHBOARD) then
    match data with
    | .single _ => .error (st, .pyError "KeyError: objects")
    | .collection objs =>
      match objs.filter (fun o => o.otype == "dashboard") with
      | [] => .error (st, .pyError "IndexError: list index out of range")
      | dash :: _ =>
        save_to_file env st (.whole data)
          (path_join folder_path (get_file_name dash.otype dash.id)) force
  else
    let objs :=
      match data with
      | .single obj => [obj]
      | .collection objs => objs
    objs.foldlM (export_obj env store folder_path force index_pattern) st

/-- `Archimedes.export(obj_type, folder_path, obj_id, obj_title, one_file,
force, index_pattern)` (named `export_object` here because `export` is a Lean
keyword).  The fetch from the remote store is recorded as the run's first
event; with neither id nor title the run fails with `ExportError` on an empty
trace. -/
def export_object (env : Env) (store : Store) (obj_type folder_path : String)
    (obj_id obj_title : Option String) (one_file force index_pattern : Bool) :
    Except (ExpState × ArchError) ExpState :=
  if truthyStr obj_id then
    let i := obj_id.getD ""
    export_objects env store (store.export_by_id obj_type i) obj_type folder_path
      one_file force index_pattern (ExpState.mk [.fetch_by_id obj_type i] [])
  else if truthyStr obj_title then
    let t := obj_title.getD ""
    export_objects env store (store.export_by_title obj_type t) obj_type folder_path
      one_file force index_pattern (ExpState.mk [.fetch_by_title obj_type t] [])
  else
    .error (ExpState.mk [] [], .exportError "Object id and title cannot be null")

/-! ### Helper lemmas about `appendUnique` -/

theorem appendUnique_nil (acc : List String) : appendUnique acc [] = acc := rfl

theorem appendUnique_cons (acc : List String) (p : String) (ps : List String) :
    appendUnique acc (p :: ps) =
      appendUnique (if p ∈ acc then acc else acc ++ [p]) ps := rfl

theorem mem_appendUnique (acc ps : List String) (x : String) :
    x ∈ appendUnique acc ps ↔ x ∈ acc ∨ x ∈ ps := by
  induction ps generalizing acc with
  | nil => simp [appendUnique_nil]
  | cons p ps ih =>
    rw [appendUnique_cons, ih]
    by_cases hp : p ∈ acc
    · simp only [if_pos hp, List.mem_cons]
      constructor
      · rintro (h | h)
        · exact Or.inl h
        · exact Or.inr (Or.inr h)
      · rintro (h | h | h)
        · exact Or.inl h
        · exact Or.inl (h ▸ hp)
        · exact Or.inr h
    · simp only [if_neg hp, List.mem_append, List.mem_singleton, List.mem_cons]
      tauto

theorem appendUnique_nodup (acc ps : List String) (h : acc.Nodup) :
    (appendUnique acc ps).Nodup := by
  induction ps generalizing acc with
  | nil => exact h
  | cons p ps ih =>
    rw [appendUnique_cons]
    apply ih
    by_cases hp : p ∈ acc
    · simpa [if_pos hp] using h
    · rw [if_neg hp]
      simp [List.nodup_append, h, hp]

theorem appendUnique_eq_append (acc ps : List String) :
    ∃ t, appendUnique acc ps = acc ++ t := by
  induction ps generalizing acc with
  | nil => exact ⟨[], by simp [appendUnique_nil]⟩
  | cons p ps ih =>
    rw [appendUnique_cons]
    by_cases hp : p ∈ acc
    · simpa [if_pos hp] using ih acc
    · obtain ⟨t, ht⟩ := ih (acc ++ [p])
      exact ⟨p :: t, by simp [if_neg hp, ht]⟩

/-! ### C9 -/

/-- C9: `get_file_name` concatenates `<type>_<id>.json` and lower-cases the
whole result; in particular `get_file_name "Search" "ABC-1"` is
`"search_abc-1.json"`. -/
theorem C9_get_file_name :
    get_file_name "Search" "ABC-1" = "search_abc-1.json" ∧
    ∀ obj_type obj_id : String,
      get_file_name obj_type obj_id =
        str_to_lower (obj_type ++ "_" ++ obj_id ++ ".json") := by
  exact ⟨by decide, fun obj_type obj_id => rfl⟩

/-! ### C5 -/

/-- C5: with no visualizations folder supplied, `_find_dashboard_files`
returns exactly `[dashboard_path]` for every environment — even one whose
dashboard content is empty or has no `panelsJSON` — so the panel list is
neither parsed nor dispatched on and no error is raised. -/
theorem C5_no_visualizations_folder (env : Env) (dashboard_path : String)
    (searches_folder index_patterns_folder : Option String) :
    find_dashboard_files env dashboard_path none searches_folder
      index_patterns_folder = .ok [dashboard_path] := rfl

/-! ### C3 -/

/-- A search artifact declaring index pattern `idx1`, and one declaring no
index pattern, used to evaluate `_find_search_files` on concrete inputs. -/
def searchWithIdx : ObjContent := ⟨"search", "s1", ⟨none, none, some ⟨some ⟨some "idx1"⟩⟩⟩⟩

/-- A search artifact with no `kibanaSavedObjectMeta`. -/
def searchNoIdx : ObjContent := ⟨"search", "s2", ⟨none, none, none⟩⟩

/-- File store for the C3 evaluation: two search files and an index-patterns
folder `ip` holding `index-pattern_idx1.json`. -/
def envC3 : Env :=
  ⟨fun p =>
     if p = "searches/search_s1.json" then some searchWithIdx
     else if p = "searches/search_s2.json" then some searchNoIdx
     else none,
   fun folder name =>
     if folder = "ip" && name = "index-pattern_idx1.json" then
       .ok "ip/index-pattern_idx1.json"
     else .error (.notFoundError name),
   fun _ => false⟩

/-- C3, evaluated on the code: with no id found the result is
`[search_path]`, and with an id and a folder it is
`[index_pattern_path, search_path]`; but with an id found and no
`index_patterns_folder` supplied, `_find_search_files` does not return
`[search_path]` — it reaches `find_file(None, ...)`, which fails. -/
theorem C3_search_files_eval :
    find_search_files envC3 "searches/search_s2.json" none =
      .ok ["searches/search_s2.json"] ∧
    find_search_files envC3 "searches/search_s1.json" (some "ip") =
      .ok ["ip/index-pattern_idx1.json", "searches/search_s1.json"] ∧
    find_search_files envC3 "searches/search_s1.json" none =
      .error (.pyError
        "find_file called with folder None for index-pattern_idx1.json") := by
  exact ⟨by decide, by decide, by decide⟩

/-! ### C2 -/

/-- The visualization of the C2 counterexample: carries `savedSearchId = s1`
and no search source of its own. -/
def visC2 : ObjContent := ⟨"visualization", "v1", ⟨none, some "s1", none⟩⟩

/-- The saved search referenced by `visC2`: declares index pattern `idx1`. -/
def searchC2 : ObjContent := ⟨"search", "s1", ⟨none, none, some ⟨some ⟨some "idx1"⟩⟩⟩⟩

/-- File store for the C2 counterexample: the visualization, its saved
search, and an index-patterns folder holding the search's index pattern. -/
def envC2 : Env :=
  ⟨fun p =>
     if p = "vis/visualization_v1.json" then some visC2
     else if p = "searches/search_s1.json" then some searchC2
     else none,
   fun folder name =>
     if folder = "searches" && name = "search_s1.json" then
       .ok "searches/search_s1.json"
     else if folder = "ip" && name = "index-pattern_idx1.json" then
       .ok "ip/index-pattern_idx1.json"
     else .error (.notFoundError name),
   fun _ => false⟩

/-- C2 is false on the code: the saved search's own resolved dependency list
contains its index-pattern file, yet `_find_visualization_files` returns only
the search's path and the visualization's own files — the index-pattern file
is not folded in. -/
theorem C2_counterexample :
    find_search_files envC2 "searches/search_s1.json" (some "ip") =
      .ok ["ip/index-pattern_idx1.json", "searches/search_s1.json"] ∧
    find_visualization_files envC2 "vis/visualization_v1.json"
      (some "searches") (some "ip") =
      .ok ["searches/search_s1.json", "vis/visualization_v1.json"] ∧
    "ip/index-pattern_idx1.json" ∉
      ["searches/search_s1.json", "vis/visualization_v1.json"] := by
  exact ⟨by decide, by decide, by decide⟩

/-- C2 amended: when the attributes carry `savedSearchId` and a searches
folder is supplied, `_find_visualization_files` resolves the search's file
path and places it (deduplicated) ahead of the files resolved from the
visualization's own search source; the search's own dependency list is not
resolved, so the result holds exactly the search's path and those files. -/
theorem C2_saved_search_path_first (env : Env) (visualization_path : String)
    (c : ObjContent) (search_id sf : String) (ipf : Option String)
    (search_path : String) (own : List String)
    (hload : env.loadJson visualization_path = some c)
    (hsid : c.attributes.savedSearchId = some search_id)
    (hfind : env.findFile sf (get_file_name SEARCH search_id) = .ok search_path)
    (hown : find_search_files env visualization_path ipf = .ok own) :
    find_visualization_files env visualization_path (some sf) ipf =
      .ok (appendUnique [search_path] own) ∧
    (appendUnique [search_path] own).head? = some search_path ∧
    ∀ x, x ∈ appendUnique [search_path] own ↔ x = search_path ∨ x ∈ own := by
  refine ⟨?_, ?_, ?_⟩
  · simp [find_visualization_files, saved_search_step, hload, hsid, hfind, hown]
  · obtain ⟨t, ht⟩ := appendUnique_eq_append [search_path] own
    rw [ht]
    rfl
  · intro x
    rw [mem_appendUnique]
    simp

/-- C2 amended, at a concrete input: the instantiation of
`C2_saved_search_path_first` on the counterexample environment. -/
theorem C2_saved_search_path_first_witness :
    find_visualization_files envC2 "vis/visualization_v1.json"
      (some "searches") (some "ip") =
      .ok (appendUnique ["searches/search_s1.json"] ["vis/visualization_v1.json"]) ∧
    (appendUnique ["searches/search_s1.json"] ["vis/visualization_v1.json"]).head? =
      some "searches/search_s1.json" ∧
    ∀ x, x ∈ appendUnique ["searches/search_s1.json"] ["vis/visualization_v1.json"] ↔
      x = "searches/search_s1.json" ∨ x ∈ ["vis/visualization_v1.json"] :=
  C2_saved_search_path_first envC2 "vis/visualization_v1.json" visC2 "s1"
    "searches" (some "ip") "searches/search_s1.json" ["vis/visualization_v1.json"]
    (by decide) (by decide) (by decide) (by decide)

/-! ### C6 -/

/-- C6: with `find` set and a non-empty file, the artifact type is the file
name's leading token before the first underscore, lower-cased
(`file_type_of`); a token that is none of dashboard, visualization, search
makes `import_from_file` raise `FileTypeError`, so no file list is produced
and nothing is imported. -/
theorem C6_unknown_file_type (env : Env) (file_path : String)
    (vf sf ipf : Option String) (force : Bool) (c : ObjContent)
    (hload : env.loadJson file_path = some c)
    (h1 : file_type_of file_path ≠ DASHBOARD)
    (h2 : file_type_of file_path ≠ VISUALIZATION)
    (h3 : file_type_of file_path ≠ SEARCH) :
    import_from_file env file_path true vf sf ipf force =
      .error (.fileTypeError
        ("File type " ++ file_type_of file_path ++ " not known")) := by
  simp [import_from_file, hload, h1, h2, h3]

/-- An artifact stored under a file whose name prefix `Map` is not a known
type. -/
def mapC6 : ObjContent := ⟨"map", "m1", ⟨none, none, none⟩⟩

/-- File store for the C6 witness. -/
def envC6 : Env :=
  ⟨fun p => if p = "exports/Map_m1.json" then some mapC6 else none,
   fun folder name => .error (.notFoundError name),
   fun _ => false⟩

/-- C6 at a concrete input: importing `exports/Map_m1.json` with `find` set
fails with `FileTypeError` for the lower-cased token `map`. -/
theorem C6_unknown_file_type_witness :
    import_from_file envC6 "exports/Map_m1.json" true none none none false =
      .error (.fileTypeError
        ("File type " ++ file_type_of "exports/Map_m1.json" ++ " not known")) :=
  C6_unknown_file_type envC6 "exports/Map_m1.json" none none none false mapC6
    (by decide) (by decide) (by decide) (by decide)

/-! ### Source-tracking lemmas for the resolver results -/

theorem findFileOpt_ok (env : Env) (o : Option String) (name p : String)
    (h : env.findFileOpt o name = .ok p) :
    ∃ folder nm, env.findFile folder nm = .ok p := by
  cases o with
  | none => cases h
  | some folder => exact ⟨folder, name, h⟩

theorem find_search_files_sources (env : Env) (sp : String) (ipf : Option String)
    (r : List String) (h : find_search_files env sp ipf = .ok r) :
    ∀ x ∈ r, x = sp ∨ ∃ folder nm, env.findFile folder nm = .ok x := by
  unfold find_search_files at h
  split at h
  · cases h
  · split at h
    · cases h
      intro x hx
      rw [List.mem_singleton] at hx
      exact Or.inl hx
    · split at h
      · cases h
        intro x hx
        rw [List.mem_singleton] at hx
        exact Or.inl hx
      · split at h
        · cases h
        · next ip_path heq =>
          cases h
          intro x hx
          rcases List.mem_cons.mp hx with rfl | hx2
          · exact Or.inr (findFileOpt_ok env ipf _ x heq)
          · rw [List.mem_singleton] at hx2
            exact Or.inl hx2

theorem saved_search_step_sources (env : Env) (sid sf : Option String)
    (r : List String) (h : saved_search_step env sid sf = .ok r) :
    ∀ x ∈ r, ∃ folder nm, env.findFile folder nm = .ok x := by
  unfold saved_search_step at h
  split at h
  · next search_id f =>
    split at h
    · cases h
    · next search_path heq =>
      cases h
      intro x hx
      rw [List.mem_singleton] at hx
      subst hx
      exact ⟨f, get_file_name SEARCH search_id, heq⟩
  · cases h
    intro x hx
    cases hx

theorem find_visualization_files_sources (env : Env) (vp : String)
    (sf ipf : Option String) (r : List String)
    (h : find_visualization_files env vp sf ipf = .ok r) :
    ∀ x ∈ r, x = vp ∨ ∃ folder nm, env.findFile folder nm = .ok x := by
  unfold find_visualization_files at h
  split at h
  · cases h
  · split at h
    · cases h
    · next vfiles heq1 =>
      split at h
      · cases h
      · next sfiles heq2 =>
        cases h
        intro x hx
        rcases (mem_appendUnique vfiles sfiles x).mp hx with hx1 | hx2
        · exact Or.inr (saved_search_step_sources env _ sf vfiles heq1 x hx1)
        · exact find_search_files_sources env vp ipf sfiles heq2 x hx2

theorem resolve_panel_sources (env : Env) (vf : String) (sf ipf : Option String)
    (panel : Panel) (r : List String)
    (h : resolve_panel env vf sf ipf panel = .ok r) :
    ∀ x ∈ r, ∃ folder nm, env.findFile folder nm = .ok x := by
  unfold resolve_panel at h
  split at h
  · split at h
    · cases h
    · next panel_path heq =>
      intro x hx
      rcases find_visualization_files_sources env panel_path sf ipf r h x hx with rfl | hs
      · exact ⟨vf, get_file_name VISUALIZATION panel.id, heq⟩
      · exact hs
  · split at h
    · split at h
      · cases h
      · next panel_path heq =>
        intro x hx
        rcases find_search_files_sources env panel_path ipf r h x hx with rfl | hs
        · exact findFileOpt_ok env sf _ x heq
        · exact hs
    · cases h

theorem resolve_panel_bad (env : Env) (vf : String) (sf ipf : Option String)
    (panel : Panel) (h1 : panel.ptype ≠ VISUALIZATION) (h2 : panel.ptype ≠ SEARCH) :
    resolve_panel env vf sf ipf panel =
      .error (.objectTypeError ("Panel type " ++ panel.ptype ++ " not handled")) := by
  simp [resolve_panel, h1, h2]

/-! ### The dashboard panel fold -/

theorem dashboard_fold_ok (env : Env) (vf : String) (sf ipf : Option String)
    (panels : List Panel) (r : List String) :
    ∀ acc : List String,
    panels.foldlM (dashboard_step env vf sf ipf) acc = .ok r →
    (∀ x ∈ acc, x ∈ r) ∧
    (acc.Nodup → r.Nodup) ∧
    (∀ x ∈ r, x ∈ acc ∨ ∃ panel ∈ panels, ∃ pf,
        resolve_panel env vf sf ipf panel = .ok pf ∧ x ∈ pf) ∧
    (∀ panel ∈ panels, ∃ pf,
        resolve_panel env vf sf ipf panel = .ok pf ∧ ∀ x ∈ pf, x ∈ r) := by
  induction panels with
  | nil =>
    intro acc h
    simp only [List.foldlM] at h
    cases h
    exact ⟨fun x hx => hx, fun hn => hn, fun x hx => Or.inl hx,
      fun panel hp => absurd hp (List.not_mem_nil panel)⟩
  | cons panel panels ih =>
    intro acc h
    simp only [List.foldlM] at h
    cases hrp : resolve_panel env vf sf ipf panel with
    | error e =>
      rw [show dashboard_step env vf sf ipf acc panel = .error e by
        simp [dashboard_step, hrp]] at h
      simp only [bind, Except.bind] at h
      cases h
    | ok pf =>
      rw [show dashboard_step env vf sf ipf acc panel = .ok (appendUnique acc pf) by
        simp [dashboard_step, hrp]] at h
      simp only [bind, Except.bind] at h
      obtain ⟨ih1, ih2, ih3, ih4⟩ := ih (appendUnique acc pf) h
      refine ⟨?_, ?_, ?_, ?_⟩
      · intro x hx
        exact ih1 x ((mem_appendUnique acc pf x).mpr (Or.inl hx))
      · intro hn
        exact ih2 (appendUnique_nodup acc pf hn)
      · intro x hx
        rcases ih3 x hx with hx1 | ⟨panel2, hp2, pf2, hok2, hx2⟩
        · rcases (mem_appendUnique acc pf x).mp hx1 with hx3 | hx3
          · exact Or.inl hx3
          · exact Or.inr ⟨panel, List.mem_cons_self panel panels, pf, hrp, hx3⟩
        · exact Or.inr ⟨panel2, List.mem_cons_of_mem panel hp2, pf2, hok2, hx2⟩
      · intro panel2 hp2
        rcases List.mem_cons.mp hp2 with rfl | hp3
        · exact ⟨pf, hrp, fun x hx =>
            ih1 x ((mem_appendUnique acc pf x).mpr (Or.inr hx))⟩
        · exact ih4 panel2 hp3

theorem dashboard_fold_bad (env : Env) (vf : String) (sf ipf : Option String)
    (panels : List Panel) (p : Panel) :
    ∀ acc : List String,
    p ∈ panels → p.ptype ≠ VISUALIZATION → p.ptype ≠ SEARCH →
    (∀ q ∈ panels, (q.ptype = VISUALIZATION ∨ q.ptype = SEARCH) →
      ∃ rq, resolve_panel env vf sf ipf q = .ok rq) →
    ∃ cause, panels.foldlM (dashboard_step env vf sf ipf) acc =
      .error (.objectTypeError cause) := by
  induction panels with
  | nil => intro acc hp _ _ _; cases hp
  | cons q panels ih =>
    intro acc hp h1 h2 hgood
    by_cases hq : q.ptype = VISUALIZATION ∨ q.ptype = SEARCH
    · obtain ⟨rq, hrq⟩ := hgood q (List.mem_cons_self q panels) hq
      have hmem : p ∈ panels := by
        rcases List.mem_cons.mp hp with rfl | hmem
        · exact absurd hq (by tauto)
        · exact hmem
      obtain ⟨cause, hfold⟩ := ih (appendUnique acc rq) hmem h1 h2
        (fun q2 hq2 hg2 => hgood q2 (List.mem_cons_of_mem q hq2) hg2)
      refine ⟨cause, ?_⟩
      simp only [List.foldlM]
      rw [show dashboard_step env vf sf ipf acc q = .ok (appendUnique acc rq) by
        simp [dashboard_step, hrq]]
      simp only [bind, Except.bind]
      exact hfold
    · push_neg at hq
      refine ⟨"Panel type " ++ q.ptype ++ " not handled", ?_⟩
      simp only [List.foldlM]
      rw [show dashboard_step env vf sf ipf acc q =
          .error (.objectTypeError ("Panel type " ++ q.ptype ++ " not handled")) by
        simp [dashboard_step, resolve_panel_bad env vf sf ipf q hq.1 hq.2]]
      simp only [bind, Except.bind]

/-! ### C1 -/

/-- C1: for a dashboard whose content has a panel list, with a
visualizations folder supplied and the resolution succeeding, and with the
dashboard's own file living outside all lookup folders (no `find_file`
lookup resolves to it), the result ends in the dashboard's path, has no
duplicate path, and contains, for every panel, every path that the panel's
own independent resolution (`resolve_panel`, dispatching to
`_find_visualization_files` or `_find_search_files`) returns. -/
theorem C1_dashboard_files (env : Env) (dashboard_path vf : String)
    (sf ipf : Option String) (c : ObjContent) (panels : List Panel)
    (l : List String)
    (hload : env.loadJson dashboard_path = some c)
    (hpanels : c.attributes.panelsJSON = some panels)
    (hsep : ∀ folder name p, env.findFile folder name = .ok p →
      p ≠ dashboard_path)
    (hok : find_dashboard_files env dashboard_path (some vf) sf ipf = .ok l) :
    l.getLast? = some dashboard_path ∧ l.Nodup ∧
    ∀ panel ∈ panels, ∃ pf,
      resolve_panel env vf sf ipf panel = .ok pf ∧ ∀ x ∈ pf, x ∈ l := by
  simp only [find_dashboard_files, hload, hpanels] at hok
  cases hfold : panels.foldlM (dashboard_step env vf sf ipf) [] with
  | error e => rw [hfold] at hok; cases hok
  | ok files =>
    rw [hfold] at hok
    injection hok with hok
    subst hok
    obtain ⟨h1, h2, h3, h4⟩ := dashboard_fold_ok env vf sf ipf panels files [] hfold
    have hnotin : dashboard_path ∉ files := by
      intro hmem
      rcases h3 dashboard_path hmem with hin | ⟨panel, hp, pf, hokp, hx⟩
      · cases hin
      · obtain ⟨folder, nm, hf⟩ := resolve_panel_sources env vf sf ipf panel pf hokp
          dashboard_path hx
        exact hsep folder nm dashboard_path hf rfl
    refine ⟨?_, ?_, ?_⟩
    · rw [List.getLast?_concat]
    · rw [List.nodup_append]
      refine ⟨h2 List.nodup_nil, List.nodup_singleton dashboard_path, ?_⟩
      intro a ha hb
      rw [List.mem_singleton] at hb
      subst hb
      exact hnotin ha
    · intro panel hp
      obtain ⟨pf, hokp, hsub⟩ := h4 panel hp
      exact ⟨pf, hokp, fun x hx => List.mem_append_left _ (hsub x hx)⟩

/-- The visualization referenced by the C1 witness dashboard. -/
def visC1 : ObjContent := ⟨"visualization", "v1", ⟨none, none, none⟩⟩

/-- The C1 witness dashboard: one visualization panel. -/
def dashC1 : ObjContent :=
  ⟨"dashboard", "d1", ⟨some [⟨"visualization", "v1"⟩], none, none⟩⟩

/-- The `find_file` lookup of the C1 witness file store, as a named function
so that its range can be reasoned about. -/
def envC1find : String → String → Except ArchError String := fun folder name =>
  if folder = "viz" && name = "visualization_v1.json" then
    .ok "viz/visualization_v1.json"
  else .error (.notFoundError name)

/-- File store for the C1 witness. -/
def envC1 : Env :=
  ⟨fun p =>
     if p = "dash/dashboard_d1.json" then some dashC1
     else if p = "viz/visualization_v1.json" then some visC1
     else none,
   envC1find,
   fun _ => false⟩

theorem envC1_sep : ∀ folder name p, envC1.findFile folder name = .ok p →
    p ≠ "dash/dashboard_d1.json" := by
  intro folder name p h
  have h2 : envC1find folder name = .ok p := h
  unfold envC1find at h2
  split at h2
  · cases h2
    decide
  · cases h2

/-- C1 at a concrete input: a dashboard with one visualization panel
resolves to the panel's file followed by the dashboard's own file. -/
theorem C1_dashboard_files_witness :
    (["viz/visualization_v1.json", "dash/dashboard_d1.json"].getLast? =
      some "dash/dashboard_d1.json") ∧
    (["viz/visualization_v1.json", "dash/dashboard_d1.json"].Nodup) ∧
    ∀ panel ∈ [Panel.mk "visualization" "v1"], ∃ pf,
      resolve_panel envC1 "viz" none none panel = .ok pf ∧
      ∀ x ∈ pf, x ∈ ["viz/visualization_v1.json", "dash/dashboard_d1.json"] :=
  C1_dashboard_files envC1 "dash/dashboard_d1.json" "viz" none none dashC1
    [⟨"visualization", "v1"⟩]
    ["viz/visualization_v1.json", "dash/dashboard_d1.json"]
    (by decide) rfl envC1_sep (by decide)

/-! ### C4 -/

/-- C4: a dashboard whose panel list holds a panel of a type that is neither
visualization nor search never resolves to a file list (no skipping, no
partial list); and whenever the well-typed panels resolve, the raised error
is precisely the `ObjectTypeError` of the panel dispatch.  A visualizations
folder must be supplied, since otherwise the no-expansion early return of C5
applies. -/
theorem C4_unsupported_panel_type (env : Env) (dashboard_path vf : String)
    (sf ipf : Option String) (c : ObjContent) (panels : List Panel) (p : Panel)
    (hload : env.loadJson dashboard_path = some c)
    (hpanels : c.attributes.panelsJSON = some panels)
    (hp : p ∈ panels) (h1 : p.ptype ≠ VISUALIZATION) (h2 : p.ptype ≠ SEARCH) :
    (∀ l, find_dashboard_files env dashboard_path (some vf) sf ipf ≠ .ok l) ∧
    ((∀ q ∈ panels, (q.ptype = VISUALIZATION ∨ q.ptype = SEARCH) →
        ∃ rq, resolve_panel env vf sf ipf q = .ok rq) →
      ∃ cause, find_dashboard_files env dashboard_path (some vf) sf ipf =
        .error (.objectTypeError cause)) := by
  constructor
  · intro l hok
    simp only [find_dashboard_files, hload, hpanels] at hok
    cases hfold : panels.foldlM (dashboard_step env vf sf ipf) [] with
    | error e => rw [hfold] at hok; cases hok
    | ok files =>
      obtain ⟨-, -, -, h4⟩ := dashboard_fold_ok env vf sf ipf panels files [] hfold
      obtain ⟨pf, hokp, -⟩ := h4 p hp
      rw [resolve_panel_bad env vf sf ipf p h1 h2] at hokp
      cases hokp
  · intro hgood
    obtain ⟨cause, hfold⟩ :=
      dashboard_fold_bad env vf sf ipf panels p [] hp h1 h2 hgood
    refine ⟨cause, ?_⟩
    simp only [find_dashboard_files, hload, hpanels]
    rw [hfold]

/-- The C4 witness dashboard: one panel of the unsupported type `map`. -/
def dashC4 : ObjContent := ⟨"dashboard", "d1", ⟨some [⟨"map", "m1"⟩], none, none⟩⟩

/-- File store for the C4 witness. -/
def envC4 : Env :=
  ⟨fun p => if p = "dash/dashboard_d1.json" then some dashC4 else none,
   fun folder name => .error (.notFoundError name),
   fun _ => false⟩

/-- C4 at a concrete input: the `map` panel makes resolution fail with
`ObjectTypeError` and never produce a list. -/
theorem C4_unsupported_panel_type_witness :
    (∀ l, find_dashboard_files envC4 "dash/dashboard_d1.json" (some "viz")
      none none ≠ .ok l) ∧
    (∃ cause, find_dashboard_files envC4 "dash/dashboard_d1.json" (some "viz")
      none none = .error (.objectTypeError cause)) := by
  have h := C4_unsupported_panel_type envC4 "dash/dashboard_d1.json" "viz"
    none none dashC4 [⟨"map", "m1"⟩] ⟨"map", "m1"⟩ (by decide) rfl
    (by decide) (by decide) (by decide)
  refine ⟨h.1, h.2 ?_⟩
  intro q hq hgoodq
  rw [List.mem_singleton] at hq
  subst hq
  rcases hgoodq with hv | hs
  · exact absurd hv (by decide)
  · exact absurd hs (by decide)

/-! ### Export-trace lemmas -/

/-- The run state an export computation ends in, whether it succeeds or
aborts with an error. -/
def outState : Except (ExpState × ArchError) ExpState → ExpState
  | .ok st => st
  | .error (st, _) => st

theorem save_to_file_ok (env : Env) (st : ExpState) (doc : SavedDoc)
    (path : String) (force : Bool) (st1 : ExpState)
    (h : save_to_file env st doc path force = .ok st1) :
    st1.events = st.events ++ [.save doc path] ∧
    st1.written = st.written ++ [path] := by
  unfold save_to_file at h
  split at h
  · cases h
  · cases h
    exact ⟨rfl, rfl⟩

theorem save_to_file_error (env : Env) (st : ExpState) (doc : SavedDoc)
    (path : String) (force : Bool) (p : ExpState × ArchError)
    (h : save_to_file env st doc path force = .error p) : p.1 = st := by
  unfold save_to_file at h
  split at h
  · cases h
    rfl
  · cases h

theorem save_to_file_events (env : Env) (st : ExpState) (doc : SavedDoc)
    (path : String) (force : Bool) :
    ∃ ext, (outState (save_to_file env st doc path force)).events =
      st.events ++ ext := by
  cases h : save_to_file env st doc path force with
  | error p =>
    refine ⟨[], ?_⟩
    rw [show outState (Except.error p) = p.1 from rfl,
      save_to_file_error env st doc path force p h, List.append_nil]
  | ok st1 =>
    exact ⟨[.save doc path], (save_to_file_ok env st doc path force st1 h).1⟩

theorem export_obj_events (env : Env) (store : Store) (folder_path : String)
    (force index_pattern : Bool) (st : ExpState) (obj : ObjContent) :
    ∃ ext, (outState (export_obj env store folder_path force index_pattern st obj)).events =
      st.events ++ ext := by
  unfold export_obj
  cases hs : save_to_file env st (.object obj)
      (path_join (get_folder_path folder_path obj.otype)
        (get_file_name obj.otype obj.id)) force with
  | error p =>
    refine ⟨[], ?_⟩
    rw [show outState (Except.error p) = p.1 from rfl,
      save_to_file_error env st _ _ force p hs, List.append_nil]
  | ok st1 =>
    obtain ⟨hev, -⟩ := save_to_file_ok env st _ _ force st1 hs
    cases index_pattern with
    | false =>
      refine ⟨[.save (.object obj)
          (path_join (get_folder_path folder_path obj.otype)
            (get_file_name obj.otype obj.id))], ?_⟩
      simp [outState, hev]
    | true =>
      cases hfip : find_index_pattern obj with
      | none =>
        refine ⟨[.save (.object obj)
            (path_join (get_folder_path folder_path obj.otype)
              (get_file_name obj.otype obj.id)),
          .find_by_id INDEX_PATTERN none], ?_⟩
        simp [hfip, outState, hev]
      | some ip_id =>
        obtain ⟨ext2, hext2⟩ := save_to_file_events env
          (ExpState.mk (st1.events ++ [.find_by_id INDEX_PATTERN (some ip_id)]) st1.written)
          (.object (store.find_by_id INDEX_PATTERN (some ip_id)))
          (path_join (get_folder_path folder_path INDEX_PATTERN)
            (get_file_name INDEX_PATTERN ip_id)) force
        refine ⟨[.save (.object obj)
            (path_join (get_folder_path folder_path obj.otype)
              (get_file_name obj.otype obj.id)),
          .find_by_id INDEX_PATTERN (some ip_id)] ++ ext2, ?_⟩
        simp only [hfip, if_true]
        rw [hext2]
        simp [hev]

theorem foldlM_export_obj_events (env : Env) (store : Store) (folder_path : String)
    (force index_pattern : Bool) (objs : List ObjContent) :
    ∀ st : ExpState,
    ∃ ext, (outState (objs.foldlM
        (export_obj env store folder_path force index_pattern) st)).events =
      st.events ++ ext := by
  induction objs with
  | nil =>
    intro st
    exact ⟨[], by simp [List.foldlM, outState, pure, Except.pure]⟩
  | cons obj objs ih =>
    intro st
    simp only [List.foldlM]
    obtain ⟨ext1, hext1⟩ := export_obj_events env store folder_path force index_pattern st obj
    cases hs : export_obj env store folder_path force index_pattern st obj with
    | error p =>
      rw [hs] at hext1
      refine ⟨ext1, ?_⟩
      simp only [bind, Except.bind]
      exact hext1
    | ok st1 =>
      rw [hs] at hext1
      obtain ⟨ext2, hext2⟩ := ih st1
      refine ⟨ext1 ++ ext2, ?_⟩
      simp only [bind, Except.bind]
      rw [hext2, show outState (Except.ok st1) = st1 from rfl] at *
      rw [hext2, hext1, List.append_assoc]

theorem export_objects_events (env : Env) (store : Store) (data : Payload)
    (obj_type folder_path : String) (one_file force index_pattern : Bool)
    (st : ExpState) :
    ∃ ext, (outState (export_objects env store data obj_type folder_path
        one_file force index_pattern st)).events = st.events ++ ext := by
  unfold export_objects
  split
  · split
    · exact ⟨[], by simp [outState]⟩
    · split
      · exact ⟨[], by simp [outState]⟩
      · exact save_to_file_events env st _ _ force
  · exact foldlM_export_obj_events env store folder_path force index_pattern _ st

/-! ### C7 -/

/-- C7: export with neither id nor title raises `ExportError` on an empty
trace (no remote call, no write); with an id the run's first event is the
`export_by_id` fetch, and with only a title the first event is the
`export_by_title` fetch — in both cases before any write, since every other
event is appended after it. -/
theorem C7_export_missing_identifier (env : Env) (store : Store)
    (obj_type folder_path : String) (one_file force index_pattern : Bool) :
    (export_object env store obj_type folder_path none none one_file force
        index_pattern =
      .error (ExpState.mk [] [],
        .exportError "Object id and title cannot be null")) ∧
    (∀ i : String, i ≠ "" → ∀ obj_title : Option String,
      (outState (export_object env store obj_type folder_path (some i) obj_title
          one_file force index_pattern)).events.head? =
        some (.fetch_by_id obj_type i)) ∧
    (∀ t : String, t ≠ "" →
      (outState (export_object env store obj_type folder_path none (some t)
          one_file force index_pattern)).events.head? =
        some (.fetch_by_title obj_type t)) := by
  refine ⟨rfl, ?_, ?_⟩
  · intro i hi obj_title
    have htr : truthyStr (some i) = true := by simp [truthyStr, hi]
    simp only [export_object, htr, if_true, Option.getD]
    obtain ⟨ext, hext⟩ := export_objects_events env store
      (store.export_by_id obj_type i) obj_type folder_path one_file force
      index_pattern (ExpState.mk [.fetch_by_id obj_type i] [])
    rw [hext]
    rfl
  · intro t ht
    have htr0 : truthyStr (none : Option String) = false := rfl
    have htr : truthyStr (some t) = true := by simp [truthyStr, ht]
    simp only [export_object, htr0, htr, Bool.false_eq_true, if_false, if_true,
      Option.getD]
    obtain ⟨ext, hext⟩ := export_objects_events env store
      (store.export_by_title obj_type t) obj_type folder_path one_file force
      index_pattern (ExpState.mk [.fetch_by_title obj_type t] [])
    rw [hext]
    rfl

/-- The artifact returned by the C7 witness store. -/
def objC7 : ObjContent := ⟨"dashboard", "d1", ⟨none, none, none⟩⟩

/-- Remote store for the C7 witness. -/
def storeC7 : Store :=
  ⟨fun t i => .single objC7, fun t ti => .single objC7, fun t oi => objC7⟩

/-- File store for the C7 witness. -/
def envC7 : Env :=
  ⟨fun p => none, fun f n => .error (.notFoundError n), fun p => false⟩

/-- C7 at concrete inputs: no identifier aborts on an empty trace; an id or a
title makes the matching fetch the run's first event. -/
theorem C7_export_missing_identifier_witness :
    (export_object envC7 storeC7 "dashboard" "out" none none false false false =
      .error (ExpState.mk [] [],
        .exportError "Object id and title cannot be null")) ∧
    ((outState (export_object envC7 storeC7 "dashboard" "out" (some "d1") none
        false false false)).events.head? =
      some (.fetch_by_id "dashboard" "d1")) ∧
    ((outState (export_object envC7 storeC7 "dashboard" "out" none (some "T")
        false false false)).events.head? =
      some (.fetch_by_title "dashboard" "T")) := by
  have h := C7_export_missing_identifier envC7 storeC7 "dashboard" "out"
    false false false
  exact ⟨h.1, h.2.1 "d1" (by decide) none, h.2.2 "T" (by decide)⟩

/-! ### C8 -/

/-- C8: a one-file dashboard export writes exactly one file — the entire
fetched payload — directly in the destination folder, named from the
dashboard object's own type and id, no matter how many objects the payload
embeds and irrespective of the `index_pattern` flag; there is only the fetch
event and that single save in the trace, and only that path is written. -/
theorem C8_one_file_dashboard (env : Env) (store : Store)
    (folder_path i : String) (obj_title : Option String)
    (force index_pattern : Bool) (objs : List ObjContent)
    (dash : ObjContent) (rest : List ObjContent)
    (hi : i ≠ "")
    (hdata : store.export_by_id DASHBOARD i = .collection objs)
    (hfilter : objs.filter (fun o => o.otype == "dashboard") = dash :: rest)
    (hfree : (env.fileExists
        (path_join folder_path (get_file_name dash.otype dash.id)) && !force) =
      false) :
    export_object env store DASHBOARD folder_path (some i) obj_title true force
        index_pattern =
      .ok (ExpState.mk
        [.fetch_by_id DASHBOARD i,
         .save (.whole (.collection objs))
           (path_join folder_path (get_file_name dash.otype dash.id))]
        [path_join folder_path (get_file_name dash.otype dash.id)]) := by
  have htr : truthyStr (some i) = true := by simp [truthyStr, hi]
  simp only [export_object, htr, if_true, Option.getD]
  rw [hdata]
  simp only [export_objects, Bool.true_and, beq_self_eq_true, if_true]
  rw [hfilter]
  unfold save_to_file
  simp [hfree]

/-- The dashboard object of the C8 witness payload. -/
def dashC8 : ObjContent :=
  ⟨"dashboard", "d1",
   ⟨some [⟨"visualization", "v1"⟩, ⟨"search", "s1"⟩], none, none⟩⟩

/-- A panel object embedded in the C8 witness payload. -/
def visC8 : ObjContent := ⟨"visualization", "v1", ⟨none, none, none⟩⟩

/-- Remote store for the C8 witness: the fetched payload embeds a panel
object besides the dashboard itself. -/
def storeC8 : Store :=
  ⟨fun t i => .collection [visC8, dashC8],
   fun t ti => .collection [visC8, dashC8],
   fun t oi => visC8⟩

/-- File store for the C8 witness. -/
def envC8 : Env :=
  ⟨fun p => none, fun f n => .error (.notFoundError n), fun p => false⟩

/-- C8 at a concrete input: a two-object payload still produces exactly one
written file, named `dashboard_d1.json`, directly under `out`. -/
theorem C8_one_file_dashboard_witness :
    export_object envC8 storeC8 DASHBOARD "out" (some "d1") none true false
        false =
      .ok (ExpState.mk
        [.fetch_by_id DASHBOARD "d1",
         .save (.whole (.collection [visC8, dashC8]))
           (path_join "out" (get_file_name dashC8.otype dashC8.id))]
        [path_join "out" (get_file_name dashC8.otype dashC8.id)]) :=
  C8_one_file_dashboard envC8 storeC8 "out" "d1" none false false
    [visC8, dashC8] dashC8 [] (by decide) rfl (by decide) (by decide)

/-! ### C10 -/

/-- C10: in a multi-file export with `index_pattern` set, the id extracted by
`__find_index_pattern` is passed to `Kibana.find_by_id` and then to
`get_file_name` unconditionally: when the extraction yields `none` there is
no skip branch — the `find_by_id` call is still made with the absent id (the
trace records it), and the run then aborts in the file-name concatenation
(`TypeError`) instead of skipping the index-pattern write. -/
theorem C10_index_pattern_id_unchecked (env : Env) (store : Store)
    (obj_type folder_path : String) (force : Bool) (obj : ObjContent)
    (st : ExpState)
    (hip : find_index_pattern obj = none)
    (hfree : ((env.fileExists (path_join (get_folder_path folder_path obj.otype)
          (get_file_name obj.otype obj.id)) ||
        decide ((path_join (get_folder_path folder_path obj.otype)
          (get_file_name obj.otype obj.id)) ∈ st.written)) && !force) = false) :
    export_objects env store (.single obj) obj_type folder_path false force
        true st =
      .error (ExpState.mk
        (st.events ++
          [.save (.object obj) (path_join (get_folder_path folder_path obj.otype)
              (get_file_name obj.otype obj.id)),
           .find_by_id INDEX_PATTERN none])
        (st.written ++ [path_join (get_folder_path folder_path obj.otype)
            (get_file_name obj.otype obj.id)]),
       .pyError "TypeError: file name from id None") := by
  simp only [export_objects, Bool.false_and, Bool.false_eq_true, if_false,
    List.foldlM]
  unfold export_obj
  unfold save_to_file
  simp [hfree, hip, bind, Except.bind]

/-- The object of the C10 witness: no search source, so no index-pattern id. -/
def objC10 : ObjContent := ⟨"visualization", "v1", ⟨none, none, none⟩⟩

/-- Remote store for the C10 witness. -/
def storeC10 : Store :=
  ⟨fun t i => .single objC10, fun t ti => .single objC10, fun t oi => objC10⟩

/-- File store for the C10 witness. -/
def envC10 : Env :=
  ⟨fun p => none, fun f n => .error (.notFoundError n), fun p => false⟩

/-- C10 at a concrete input: exporting an object with no index-pattern id
while `index_pattern` is set records the `find_by_id` call with the absent id
and aborts at the file-name concatenation. -/
theorem C10_index_pattern_id_unchecked_witness :
    export_objects envC10 storeC10 (.single objC10) "visualization" "out"
        false false true (ExpState.mk [] []) =
      .error (ExpState.mk
        ([] ++
          [.save (.object objC10)
            (path_join (get_folder_path "out" objC10.otype)
              (get_file_name objC10.otype objC10.id)),
           .find_by_id INDEX_PATTERN none])
        ([] ++ [path_join (get_folder_path "out" objC10.otype)
            (get_file_name objC10.otype objC10.id)]),
       .pyError "TypeError: file name from id None") :=
  C10_index_pattern_id_unchecked envC10 storeC10 "visualization" "out" false
    objC10 (ExpState.mk [] []) rfl (by decide)
